import Mathlib

/-!
Verification of the Gmail attachment downloader's client core
(`src/gmail_downloader/gmail_client.py`, helpers in `utils.py`, configuration
in `config.py`) against its natural-language specification.

The Python functions are shallowly embedded as executable Lean definitions:
timestamps are seconds as `Nat`, Python dict payloads become inductive trees,
the stateful quota/statistics fields of `GmailClient` become an explicit
`ClientState` record threaded through `make_api_request_once`, and the
`backoff` decorator becomes an explicit bounded retry loop over a stream of
attempt outcomes.
-/

namespace GmailDownloader

/-! ### `utils.is_valid_email` (utils.py, lines 215-268)

The Python function strips the input, checks the length bounds 5..254 and then
matches the anchored pattern `^[a-zA-Z0-9._%+-]+@[a-zA-Z0-9.-]+\.[a-zA-Z]{2,}$`.
Neither character class contains `@`, so the local part extends exactly to the
first `@`; the terminal `[a-zA-Z]{2,}` segment contains no dot, so a match
exists iff splitting the domain at its last dot yields a nonempty
`[a-zA-Z0-9.-]+` prefix and an all-alphabetic suffix of length at least 2. -/

/-- Python `str.strip()`: drop leading and trailing whitespace. -/
def pyStrip (s : String) : String :=
  String.mk (((s.toList.dropWhile Char.isWhitespace).reverse.dropWhile
    Char.isWhitespace).reverse)

/-- Python `str.lower()` (ASCII-relevant part). -/
def pyLower (s : String) : String :=
  String.mk (s.toList.map Char.toLower)

def isLocalChar (c : Char) : Bool :=
  c.isAlphanum || c = '.' || c = '_' || c = '%' || c = '+' || c = '-'

def isDomainChar (c : Char) : Bool :=
  c.isAlphanum || c = '.' || c = '-'

/-- Match `[a-zA-Z0-9.-]+\.[a-zA-Z]{2,}` against the whole character list:
split at the last dot; the suffix must be alphabetic of length ≥ 2 and the
prefix nonempty over the domain character class. -/
def domainMatch (cs : List Char) : Bool :=
  let rev := cs.reverse
  let tldRev := rev.takeWhile (fun c => c ≠ '.')
  match rev.drop tldRev.length with
  | '.' :: preRev =>
      decide (preRev ≠ []) && preRev.all isDomainChar &&
        decide (2 ≤ tldRev.length) && tldRev.all Char.isAlpha
  | _ => false

/-- Match `^[a-zA-Z0-9._%+-]+@` followed by `domainMatch` over the whole list. -/
def emailPatternMatch (cs : List Char) : Bool :=
  match cs.span (fun c => c ≠ '@') with
  | (localPart, rest) =>
    match rest with
    | '@' :: domain =>
        decide (localPart ≠ []) && localPart.all isLocalChar && domainMatch domain
    | _ => false

def is_valid_email (email : String) : Bool :=
  let e := pyStrip email
  if e.length < 5 || 254 < e.length then false
  else emailPatternMatch e.toList

/-! ### `utils.extract_email_address` (utils.py, lines 271-319)

`re.search(r'<(.+?)>', s)` finds the leftmost `<`, then the shortest nonempty
run of non-newline characters up to a closing `>`; if no close is reachable
from a given `<`, the search resumes after it. -/

/-- Shortest nonempty prefix of non-newline characters followed by `>`
(the `(.+?)>` part of the bracket regex). -/
def scanBracketClose (cs : List Char) : Option (List Char) :=
  go [] cs
where
  go (acc : List Char) : List Char → Option (List Char)
    | [] => none
    | c :: rest =>
      if acc ≠ [] && c = '>' then some acc.reverse
      else if c = '\n' then none
      else go (c :: acc) rest

/-- Leftmost match of `<(.+?)>`, returning the captured group. -/
def bracketContent : List Char → Option (List Char)
  | [] => none
  | c :: rest =>
    if c = '<' then
      match scanBracketClose rest with
      | some content => some content
      | none => bracketContent rest
    else bracketContent rest

def extract_email_address (full_email : String) : String :=
  if full_email = "" then ""
  else
    let clean := pyStrip full_email
    let fromBracket : Option String :=
      match bracketContent clean.toList with
      | some content =>
          let extracted := pyStrip (String.mk content)
          if is_valid_email extracted then some (pyLower extracted) else none
      | none => none
    match fromBracket with
    | some e => e
    | none =>
        let potential := pyLower clean
        if is_valid_email potential then potential else full_email

/-! ### Dates: `utils.parse_date` result and `strftime('%Y/%m/%d')`

`parse_date` tries eight `strptime` formats and returns a date or `None`; the
query builder only consumes its result, so the parser is passed as a function
`String → Option PyDate` to `build_search_query`. The zero-padded
`%Y/%m/%d` rendering used at gmail_client.py lines 404 and 411 is embedded. -/

structure PyDate where
  year : Nat
  month : Nat
  day : Nat
deriving DecidableEq

def pad2 (n : Nat) : String :=
  if n < 10 then "0" ++ toString n else toString n

def pad4 (n : Nat) : String :=
  if n < 10 then "000" ++ toString n
  else if n < 100 then "00" ++ toString n
  else if n < 1000 then "0" ++ toString n
  else toString n

def strftime_ymd (d : PyDate) : String :=
  pad4 d.year ++ "/" ++ pad2 d.month ++ "/" ++ pad2 d.day

/-! ### `GmailClient.build_search_query` (gmail_client.py, lines 351-445)

Optional string arguments follow Python truthiness: `None` and `""` both skip
the clause. Each block appends its clauses to `query_parts` in source order;
the final query joins the parts with single spaces. -/

/-- Python truthiness of an `Optional[str]`. -/
def strTruthy : Option String → Bool
  | none => false
  | some s => if s = "" then false else true

/-- `ext.lstrip(".")`: remove all leading dots. -/
def lstripDots (s : String) : String :=
  String.mk (s.toList.dropWhile (fun c => c = '.'))

def build_search_query (parse_date : String → Option PyDate)
    (senders : List String) (after_date before_date : Option String)
    (has_attachment : Bool)
    (subject_keywords exclude_keywords extensions : List String) : String :=
  let q0 : List String := []
  -- sender block (lines 381-398): appends at most one part
  let q1 := q0 ++
    (if senders ≠ [] then
      match senders.filterMap (fun s =>
          let clean_email := extract_email_address s
          if is_valid_email clean_email then some clean_email else none) with
      | [] => []
      | [e] => ["from:" ++ e]
      | es => ["(" ++ String.intercalate " OR " (es.map (fun e => "from:" ++ e)) ++ ")"]
    else [])
  -- date blocks (lines 400-413): each appends at most one part
  let q2 := q1 ++
    (if strTruthy after_date then
      match parse_date ((after_date).getD "") with
      | some d => ["after:" ++ strftime_ymd d]
      | none => []
    else [])
  let q3 := q2 ++
    (if strTruthy before_date then
      match parse_date ((before_date).getD "") with
      | some d => ["before:" ++ strftime_ymd d]
      | none => []
    else [])
  -- attachment token (lines 415-417)
  let q4 := q3 ++ (if has_attachment then ["has:attachment"] else [])
  -- extension block (lines 419-431): appends at most one part
  let q5 := q4 ++
    (if extensions ≠ [] then
      match extensions.map (fun ext => "filename:" ++ lstripDots ext) with
      | [] => []
      | [single] => [single]
      | eqs => ["(" ++ String.intercalate " OR " eqs ++ ")"]
    else [])
  -- subject keyword block (lines 433-436): one part per keyword
  let q6 := q5 ++ subject_keywords.map (fun kw => "subject:\"" ++ kw ++ "\"")
  -- exclusion block (lines 438-441): one part per keyword
  let q7 := q6 ++ exclude_keywords.map (fun kw => "-" ++ kw)
  String.intercalate " " q7

/-! Second, spec-side description of the same query: one clause list per §4.4
item, concatenated in the spec's fixed order. Used to state that the built
query follows the fixed clause sequence. -/

/-- Modelled from the spec: §4.4 item 1, the senders group (order preserved,
invalid addresses dropped). -/
def spec_senders_clause (senders : List String) : List String :=
  if senders ≠ [] then
    match senders.filterMap (fun s =>
        let clean_email := extract_email_address s
        if is_valid_email clean_email then some clean_email else none) with
    | [] => []
    | [e] => ["from:" ++ e]
    | es => ["(" ++ String.intercalate " OR " (es.map (fun e => "from:" ++ e)) ++ ")"]
  else []

/-- Modelled from the spec: §4.4 item 2, a date bound clause (dropped when
unparseable). -/
def spec_date_clause (parse_date : String → Option PyDate) (tok : String)
    (date : Option String) : List String :=
  if strTruthy date then
    match parse_date (date.getD "") with
    | some d => [tok ++ strftime_ymd d]
    | none => []
  else []

/-- Modelled from the spec: §4.4 item 3, the attachment token. -/
def spec_attachment_clause (has_attachment : Bool) : List String :=
  if has_attachment then ["has:attachment"] else []

/-- Modelled from the spec: §4.4 item 4, filename clauses OR-combined. -/
def spec_extensions_clause (extensions : List String) : List String :=
  if extensions ≠ [] then
    match extensions.map (fun ext => "filename:" ++ lstripDots ext) with
    | [] => []
    | [single] => [single]
    | eqs => ["(" ++ String.intercalate " OR " eqs ++ ")"]
  else []

/-- Modelled from the spec: §4.4 item 5, quoted subject-include clauses. -/
def spec_subject_clauses (subject_keywords : List String) : List String :=
  subject_keywords.map (fun kw => "subject:\"" ++ kw ++ "\"")

/-- Modelled from the spec: §4.4 item 5, negated exclude clauses. -/
def spec_exclude_clauses (exclude_keywords : List String) : List String :=
  exclude_keywords.map (fun kw => "-" ++ kw)

/-- Modelled from the spec: the §4.4 clause lists in their fixed order. -/
def spec_query_clauses (parse_date : String → Option PyDate)
    (senders : List String) (after_date before_date : Option String)
    (has_attachment : Bool)
    (subject_keywords exclude_keywords extensions : List String) : List String :=
  spec_senders_clause senders
    ++ spec_date_clause parse_date "after:" after_date
    ++ spec_date_clause parse_date "before:" before_date
    ++ spec_attachment_clause has_attachment
    ++ spec_extensions_clause extensions
    ++ spec_subject_clauses subject_keywords
    ++ spec_exclude_clauses exclude_keywords

/-! ### Configuration (config.py)

`GmailConfig` in `src/gmail_downloader/config.py` (lines 27-31) defines only
the two credential paths; it has no rate-limit fields. `GmailClient.__init__`
nevertheless reads `config.gmail.requests_per_minute` (and later
`requests_per_day`), so those values come from whatever configuration object
the caller supplies. -/

structure GmailConfig where
  credentials_file : String := "config/credentials.json"
  token_file : String := "config/token.json"
deriving DecidableEq

/-- Concurrency limit computed at construction (gmail_client.py lines 160-162):
`asyncio.Semaphore(requests_per_minute // 60)`, with no minimum applied. -/
def semaphore_limit (requests_per_minute : Nat) : Nat :=
  requests_per_minute / 60

/-! ### `GmailClient._make_api_request` body (gmail_client.py, lines 263-349)

One invocation of the decorated function, i.e. one attempt of the backoff
loop. The mutable fields `_quota_used`, `_quota_reset_time` and `stats` form
`ClientState`; `datetime.now()` is the `now` argument (seconds); the network
call `request_func` is represented by its outcome, and the 401-path
`authenticate()` call by a boolean outcome plus the outcome of the re-issued
request. The result records which exception (if any) escapes, the state after
the call, and how often the action and `authenticate()` were invoked. -/

structure Stats where
  requests_made : Nat := 0
  quota_units_used : Nat := 0
  rate_limit_hits : Nat := 0
  authentication_refreshes : Nat := 0
deriving DecidableEq

structure ClientState where
  quota_used : Nat
  quota_reset_time : Nat
  stats : Stats
deriving DecidableEq

/-- Outcome of one invocation of `request_func`. `httpError` carries the HTTP
status, the machine-readable reason from `error_details`, and the optional
`retry-after` header; `transportFailure` is any non-`HttpError` exception. -/
inductive ActionResult (R : Type) where
  | ok (resp : R)
  | httpError (status : Nat) (reason : String) (retryAfterHeader : Option Nat)
  | transportFailure

/-- Exception escaping one `_make_api_request` attempt. `httpRaw` stands for a
raw `googleapiclient` `HttpError` (listed in the decorator's retry tuple);
the remaining constructors are the module's own exception classes plus the
propagated non-HTTP transport exception. -/
inductive RaisedExc where
  | httpRaw (status : Nat) (reason : String) (retryAfterHeader : Option Nat)
  | rateLimit (retry_after : Nat)
  | quotaExceeded
  | authenticationError
  | gmailError
  | transportRaised
deriving DecidableEq

structure GateResult (R : Type) where
  result : Except RaisedExc R
  state : ClientState
  actionCalls : Nat
  reauthAttempts : Nat

def seconds_per_day : Nat := 86400

/-- Reasons treated as rate limiting (gmail_client.py lines 320-323). -/
def isRateLimitReason (reason : String) : Bool :=
  reason = "rateLimitExceeded" || reason = "userRateLimitExceeded"

def make_api_request_once {R : Type} (requests_per_day quota_units now : Nat)
    (st : ClientState) (first : ActionResult R) (reauth_ok : Bool)
    (second : ActionResult R) : GateResult R :=
  -- quota check (lines 294-298): rejected before the request is executed
  if requests_per_day < st.quota_used + quota_units then
    ⟨.error .quotaExceeded, st, 0, 0⟩
  else
    match first with
    | .ok resp =>
        -- statistics and quota update (lines 303-306)
        let st1 : ClientState :=
          { st with
            stats := { st.stats with
              requests_made := st.stats.requests_made + 1,
              quota_units_used := st.stats.quota_units_used + quota_units },
            quota_used := st.quota_used + quota_units }
        -- lazy daily reset, applied only after a successful request (308-312)
        let st2 : ClientState :=
          if st1.quota_reset_time ≤ now then
            { st1 with quota_used := 0, quota_reset_time := now + seconds_per_day }
          else st1
        ⟨.ok resp, st2, 1, 0⟩
    | .httpError status reason retryAfterHeader =>
        -- classification (lines 316-349)
        if status = 429 || isRateLimitReason reason then
          ⟨.error (.rateLimit (retryAfterHeader.getD 60)),
            { st with stats :=
              { st.stats with rate_limit_hits := st.stats.rate_limit_hits + 1 } },
            1, 0⟩
        else if status = 403 && reason = "quotaExceeded" then
          ⟨.error .quotaExceeded, st, 1, 0⟩
        else if status = 401 then
          -- one-shot re-authentication and inline retry (lines 334-345)
          if reauth_ok then
            match second with
            | .ok resp => ⟨.ok resp, st, 2, 1⟩
            | _ => ⟨.error .authenticationError, st, 2, 1⟩
          else ⟨.error .authenticationError, st, 1, 1⟩
        else ⟨.error .gmailError, st, 1, 0⟩
    | .transportFailure => ⟨.error .transportRaised, st, 1, 0⟩

/-! ### The `backoff` decorator (gmail_client.py, lines 263-269)

`@backoff.on_exception(backoff.expo, (HttpError, GmailRateLimitError),
max_tries=5, jitter=backoff.full_jitter, max_time=300)`. The retry loop below
consumes a stream of attempt outcomes; `elapsed_after k` is the wall-clock
time elapsed when attempt `k` has failed. The library retries only if the
raised exception is an instance of the tuple, fewer than 5 tries were made,
and the elapsed time is still below `max_time`. -/

/-- Membership in the decorator's exception tuple `(HttpError, GmailRateLimitError)`. -/
def retried_by_backoff : RaisedExc → Bool
  | .httpRaw _ _ _ => true
  | .rateLimit _ => true
  | _ => false

def backoff_max_tries : Nat := 5

def backoff_max_time : Nat := 300

def backoffGo {R : Type} (outcomes : Nat → Except RaisedExc R)
    (elapsed_after : Nat → Nat) : Nat → Nat → Except RaisedExc R × Nat
  | fuel, k =>
    match outcomes k, fuel with
    | .ok v, _ => (.ok v, k + 1)
    | .error e, 0 => (.error e, k + 1)
    | .error e, fuel' + 1 =>
        if retried_by_backoff e && elapsed_after k < backoff_max_time then
          backoffGo outcomes elapsed_after fuel' (k + 1)
        else (.error e, k + 1)

/-- The whole decorated call: first attempt plus at most four retries;
returns the surfaced outcome and the number of attempts made. -/
def backoff_run {R : Type} (outcomes : Nat → Except RaisedExc R)
    (elapsed_after : Nat → Nat) : Except RaisedExc R × Nat :=
  backoffGo outcomes elapsed_after (backoff_max_tries - 1) 0

/-! ### Backoff delay (`backoff.expo` with `full_jitter`)

`backoff.expo` yields `factor * base ** n` with the defaults `base=2`,
`factor=1`, and no `max_value`; `full_jitter(v)` draws uniformly from
`[0, v]`. A draw is represented by its fraction `r ∈ [0, 1]` of the expo
value. The server-provided `retry_after` stored on `GmailRateLimitError` is
never consulted by this computation. -/

def backoff_expo_value (attempt : Nat) : ℚ := 2 ^ attempt

def full_jitter_delay (attempt : Nat) (draw : ℚ) : ℚ :=
  draw * backoff_expo_value attempt

/-! ### Spec-side models used to compare the code against the claims -/

/-- Modelled from the spec: the §4.2 outcome classification categories. -/
inductive SpecCategory where
  | rateLimited (retryAfterSeconds : Nat)
  | quotaExceeded
  | unauthorized
  | transientError
deriving DecidableEq

/-- Modelled from the spec: §4.2 classification of a failed HTTP response
(429 / rate-limit reason, then 403 quota, then 401, else transient). -/
def spec_classify (status : Nat) (reason : String)
    (retryAfterHeader : Option Nat) : SpecCategory :=
  if status = 429 || isRateLimitReason reason then
    .rateLimited (retryAfterHeader.getD 60)
  else if status = 403 && reason = "quotaExceeded" then .quotaExceeded
  else if status = 401 then .unauthorized
  else .transientError

/-- Modelled from the spec: §4.3, the categories marked retryable
(`RateLimited`, `TransientError`). -/
def spec_retryable : SpecCategory → Bool
  | .rateLimited _ => true
  | .transientError => true
  | _ => false

/-- Modelled from the spec: §4.1 `reserve` — first reset the window when
`now ≥ resetAt` (counter to 0, `resetAt` advanced by one day), then evaluate
the budget, and only then consume it. -/
def reserve_spec (daily_limit units now : Nat) (st : ClientState) :
    Except RaisedExc ClientState :=
  let st0 :=
    if st.quota_reset_time ≤ now then
      { st with quota_used := 0,
                quota_reset_time := st.quota_reset_time + seconds_per_day }
    else st
  if daily_limit < st0.quota_used + units then .error .quotaExceeded
  else .ok { st0 with quota_used := st0.quota_used + units }

/-! ### `GmailClient._find_attachments` and friends (gmail_client.py, 607-698)

A Gmail message payload is a tree of parts. A part contributes an attachment
iff its body carries a truthy `attachmentId` and the part has a truthy
`filename` (lines 622-625); the walk appends the part itself and recurses
into `parts`. `Option` distinguishes a missing key from an empty string, so
Python truthiness of `d.get(k)` is `truthyStr`. -/

/-- Python truthiness of `d.get(key)` for a string-valued key. -/
def truthyStr : Option String → Bool
  | none => false
  | some s => if s = "" then false else true

inductive Payload where
  | mk (attachmentId : Option String) (filename : Option String)
       (mimeType : Option String) (size : Option Nat) (parts : List Payload)

def Payload.attachmentId : Payload → Option String
  | .mk a _ _ _ _ => a

def Payload.filename : Payload → Option String
  | .mk _ f _ _ _ => f

def Payload.mimeType : Payload → Option String
  | .mk _ _ m _ _ => m

def Payload.size : Payload → Option Nat
  | .mk _ _ _ s _ => s

mutual

def find_attachments : Payload → List Payload
  | .mk aid fn mt sz parts =>
      (if truthyStr aid && truthyStr fn then [Payload.mk aid fn mt sz parts]
       else []) ++ find_attachments_list parts

def find_attachments_list : List Payload → List Payload
  | [] => []
  | p :: ps => find_attachments p ++ find_attachments_list ps

end

/-- The claim's count: number of parts, at any depth, carrying both a
body-level attachment id and a (non-empty) filename. -/
def count_attachment_parts (p : Payload) : Nat :=
  (find_attachments p).length

mutual

/-- Spec-side recount of the same quantity by direct structural recursion,
used so the theorem is not a restatement of `find_attachments`. -/
def spec_count_parts : Payload → Nat
  | .mk aid fn _ _ parts =>
      (if truthyStr aid && truthyStr fn then 1 else 0) + spec_count_parts_list parts

def spec_count_parts_list : List Payload → Nat
  | [] => 0
  | p :: ps => spec_count_parts p + spec_count_parts_list ps

end

structure EmailAttachment where
  attachment_id : String
  message_id : String
  filename : String
  mime_type : String
  size : Nat
deriving DecidableEq

/-- `GmailClient.get_message_attachments` after the full-message fetch
(gmail_client.py lines 662-692): one `EmailAttachment` per walked part whose
`attachmentId` is truthy, with the source's `.get(...)` defaults. -/
def get_message_attachments (message_id : String) (payload : Payload) :
    List EmailAttachment :=
  (find_attachments payload).filterMap fun p =>
    match p.attachmentId with
    | some aid =>
        if aid = "" then none
        else some
          { attachment_id := aid
            message_id := message_id
            filename := p.filename.getD "attachment"
            mime_type := p.mimeType.getD "application/octet-stream"
            size := p.size.getD 0 }
    | none => none

/-- `attachment_count` field computed by `get_message_details`
(gmail_client.py lines 588, 599). -/
def message_attachment_count (payload : Payload) : Nat :=
  (find_attachments payload).length

/-- `has_attachments` field computed by `get_message_details`
(gmail_client.py lines 588, 598). -/
def message_has_attachments (payload : Payload) : Bool :=
  decide (0 < (find_attachments payload).length)

/-! ### Python `sorted` on message-id strings

Python sorts strings by code points. The boolean comparison below is
lexicographic on the character list; `strLe_iff_le` identifies it with the
`≤` of `String`'s linear order, so sortedness statements can be phrased with
`≤` while remaining computable by reduction. -/

def charListLe : List Char → List Char → Bool
  | [], _ => true
  | _ :: _, [] => false
  | a :: as, b :: bs =>
    if a < b then true else if b < a then false else charListLe as bs

theorem charListLe_iff (as : List Char) : ∀ bs, charListLe as bs = true ↔ ¬ bs < as := by
  induction as with
  | nil =>
    intro bs
    constructor
    · intro _ h; cases h
    · intro _; cases bs <;> rfl
  | cons a as ih =>
    intro bs
    cases bs with
    | nil =>
      constructor
      · intro h; exact absurd h (by simp [charListLe])
      · intro h; exact absurd (List.Lex.nil) h
    | cons b bs =>
      show (if a < b then true else if b < a then false else charListLe as bs) = true ↔ _
      by_cases hab : a < b
      · rw [if_pos hab]
        constructor
        · intro _ h
          cases h with
          | cons h => exact lt_irrefl a hab
          | rel h => exact absurd hab (asymm h)
        · intro _; rfl
      · by_cases hba : b < a
        · rw [if_neg hab, if_pos hba]
          constructor
          · intro h; exact absurd h (by simp)
          · intro h; exact absurd (List.Lex.rel hba) h
        · rw [if_neg hab, if_neg hba]
          have hba' : b = a := le_antisymm (not_lt.mp hab) (not_lt.mp hba)
          subst hba'
          rw [ih bs]
          constructor
          · intro h hlt
            cases hlt with
            | cons h' => exact h h'
            | rel h' => exact lt_irrefl b h'
          · intro h hlt; exact h (List.Lex.cons hlt)

def strLe (a b : String) : Bool := charListLe a.toList b.toList

theorem strLe_iff_le (a b : String) : strLe a b = true ↔ a ≤ b := by
  rw [strLe, charListLe_iff, String.le_iff_toList_le]
  exact not_lt

instance : IsTotal String (fun a b => strLe a b = true) :=
  ⟨fun a b => by rw [strLe_iff_le, strLe_iff_le]; exact le_total a b⟩

instance : IsTrans String (fun a b => strLe a b = true) :=
  ⟨fun a b c hab hbc => by
    rw [strLe_iff_le] at hab hbc ⊢; exact le_trans hab hbc⟩

/-- Python `sorted` on a list of message ids. -/
def pySorted (l : List String) : List String :=
  List.insertionSort (fun a b => strLe a b = true) l

/-! ### `GmailClient.watch_for_new_messages` (gmail_client.py, lines 742-807)

The baseline search either raises (the generator logs and returns having
yielded nothing) or produces the initial `seen_message_ids` set. Each later
poll either raises (logged, loop continues with the next cycle) or yields the
ids of the current search; a Python `set` of ids is modelled by the
deduplicated list of the ids iterated into it, with membership as the set
semantics. New ids are `current − seen`, added to `seen` and yielded in
Python `sorted` order; the emitted sequence is the concatenation of the
yields. -/

/-- One successful poll cycle (lines 783-798): the updated `seen` set and the
ids yielded by this cycle. -/
def pollCycle (seen current : List String) : List String × List String :=
  let newIds := current.dedup.filter (fun m => decide (m ∉ seen))
  if newIds = [] then (seen, [])
  else (seen ++ newIds, pySorted newIds)

/-- The poll loop over a finite prefix of cycles; a failed poll is logged and
skipped (lines 803-807). -/
def watchLoop : List String → List (Except String (List String)) → List String
  | _, [] => []
  | seen, .error _ :: rest => watchLoop seen rest
  | seen, .ok current :: rest =>
      let p := pollCycle seen current
      p.2 ++ watchLoop p.1 rest

/-- The whole generator: a failed baseline search ends the generator with no
yields and no exception (lines 766-776); otherwise the poll loop runs from
the set of baseline ids. -/
def watch_for_new_messages (baseline : Except String (List String))
    (polls : List (Except String (List String))) : List String :=
  match baseline with
  | .error _ => []
  | .ok ids => watchLoop ids.dedup polls

/-! ### Helper lemmas about the retry loop -/

theorem backoffGo_tries_le {R : Type} (o : Nat → Except RaisedExc R) (el : Nat → Nat) :
    ∀ fuel k, (backoffGo o el fuel k).2 ≤ k + fuel + 1 := by
  intro fuel
  induction fuel with
  | zero =>
    intro k
    unfold backoffGo
    rcases h : o k with e | v <;> simp
  | succ n ih =>
    intro k
    unfold backoffGo
    rcases h : o k with e | v
    · dsimp only
      split
      · have := ih (k + 1); omega
      · dsimp only; omega
    · simp

theorem backoffGo_result_last {R : Type} (o : Nat → Except RaisedExc R) (el : Nat → Nat) :
    ∀ fuel k, (backoffGo o el fuel k).1 = o ((backoffGo o el fuel k).2 - 1) := by
  intro fuel
  induction fuel with
  | zero =>
    intro k
    unfold backoffGo
    rcases h : o k with e | v <;> simp [h]
  | succ n ih =>
    intro k
    unfold backoffGo
    rcases h : o k with e | v
    · dsimp only
      split
      · exact ih (k + 1)
      · simp [h]
    · simp [h]

theorem backoffGo_stop {R : Type} (o : Nat → Except RaisedExc R) (el : Nat → Nat)
    (fuel k : Nat) (e : RaisedExc) (h : o k = .error e)
    (hstop : retried_by_backoff e = false ∨ backoff_max_time ≤ el k) :
    backoffGo o el fuel k = (.error e, k + 1) := by
  cases fuel with
  | zero => unfold backoffGo; rw [h]
  | succ n =>
    unfold backoffGo
    rw [h]
    dsimp only
    rw [if_neg]
    simp only [Bool.and_eq_true, decide_eq_true_eq, not_and, not_lt]
    intro h1
    rcases hstop with h3 | h3
    · rw [h3] at h1; exact (Bool.false_ne_true h1).elim
    · exact h3

/-- The gate wraps every caught `HttpError` into one of the module's own
exception classes, so a raw `HttpError` never escapes `_make_api_request`. -/
theorem gate_no_raw_httpError {R : Type} (requests_per_day quota_units now : Nat)
    (st : ClientState) (first : ActionResult R) (reauth_ok : Bool)
    (second : ActionResult R) (s : Nat) (r : String) (a : Option Nat) :
    (make_api_request_once requests_per_day quota_units now st first reauth_ok
      second).result ≠ .error (.httpRaw s r a) := by
  unfold make_api_request_once
  split
  · intro h; cases h
  · rcases first with v | ⟨s1, r1, a1⟩ | _
    · intro h; cases h
    · dsimp only
      split
      · intro h; cases h
      · split
        · intro h; cases h
        · split
          · split
            · rcases second with v2 | ⟨s2, r2, a2⟩ | _ <;> intro h <;> cases h
            · intro h; cases h
          · intro h; cases h
    · intro h; cases h

/-! ### Helper lemmas about the watcher -/

theorem pollCycle_seen_subset (seen current : List String) :
    seen ⊆ (pollCycle seen current).1 := by
  unfold pollCycle
  dsimp only
  split
  · exact fun a ha => ha
  · exact List.subset_append_left _ _

theorem mem_pollCycle_emit {x : String} {seen current : List String}
    (h : x ∈ (pollCycle seen current).2) :
    x ∉ seen ∧ x ∈ (pollCycle seen current).1 := by
  unfold pollCycle at *
  dsimp only at *
  rcases hsplit : decide (current.dedup.filter (fun m => decide (m ∉ seen)) = [])
    with _ | _
  · have hne := of_decide_eq_false hsplit
    rw [if_neg hne] at h ⊢
    have hmem : x ∈ current.dedup.filter (fun m => decide (m ∉ seen)) :=
      (List.perm_insertionSort _ _).mem_iff.mp h
    have hns : x ∉ seen := of_decide_eq_true (List.mem_filter.mp hmem).2
    exact ⟨hns, List.mem_append_right _ hmem⟩
  · have he := of_decide_eq_true hsplit
    rw [if_pos he] at h
    cases h

theorem pollCycle_emit_nodup (seen current : List String) :
    (pollCycle seen current).2.Nodup := by
  unfold pollCycle
  dsimp only
  split
  · exact List.nodup_nil
  · exact ((List.perm_insertionSort _ _).nodup_iff).mpr
      ((List.nodup_dedup current).filter _)

theorem pollCycle_emit_sorted (seen current : List String) :
    ((pollCycle seen current).2).Sorted (· ≤ ·) := by
  unfold pollCycle
  dsimp only
  split
  · exact List.sorted_nil
  · exact (List.sorted_insertionSort _ _).imp (fun hab => (strLe_iff_le _ _).mp hab)

theorem watchLoop_not_mem_seen {x : String} :
    ∀ (seen : List String) (polls : List (Except String (List String))),
      x ∈ watchLoop seen polls → x ∉ seen := by
  intro seen polls
  induction polls generalizing seen with
  | nil => intro h; cases h
  | cons p rest ih =>
    cases p with
    | error e =>
      intro h
      exact ih seen h
    | ok current =>
      intro h
      rcases List.mem_append.mp h with h1 | h1
      · exact (mem_pollCycle_emit h1).1
      · intro hx
        exact ih _ h1 (pollCycle_seen_subset seen current hx)

theorem watchLoop_nodup :
    ∀ (seen : List String) (polls : List (Except String (List String))),
      (watchLoop seen polls).Nodup := by
  intro seen polls
  induction polls generalizing seen with
  | nil => exact List.nodup_nil
  | cons p rest ih =>
    cases p with
    | error e => exact ih seen
    | ok current =>
      refine List.Nodup.append (pollCycle_emit_nodup seen current) (ih _) ?_
      intro a ha hb
      exact watchLoop_not_mem_seen _ rest hb (mem_pollCycle_emit ha).2

/-! ### Helper lemmas about the attachment walk -/

mutual

theorem find_attachments_length_eq : ∀ p : Payload,
    (find_attachments p).length = spec_count_parts p
  | .mk aid fn mt sz parts => by
      unfold find_attachments spec_count_parts
      rw [List.length_append, find_attachments_list_length_eq parts]
      cases h : truthyStr aid && truthyStr fn <;> simp [h]

theorem find_attachments_list_length_eq : ∀ ps : List Payload,
    (find_attachments_list ps).length = spec_count_parts_list ps
  | [] => rfl
  | p :: ps => by
      unfold find_attachments_list spec_count_parts_list
      rw [List.length_append, find_attachments_length_eq p,
        find_attachments_list_length_eq ps]

end

mutual

theorem mem_find_attachments : ∀ (p x : Payload), x ∈ find_attachments p →
    (truthyStr x.attachmentId && truthyStr x.filename) = true
  | .mk aid fn mt sz parts, x, hx => by
      unfold find_attachments at hx
      rcases List.mem_append.mp hx with h | h
      · by_cases hc : (truthyStr aid && truthyStr fn) = true
        · rw [if_pos hc] at h
          rcases List.mem_singleton.mp h with rfl
          simpa [Payload.attachmentId, Payload.filename] using hc
        · rw [if_neg hc] at h
          cases h
      · exact mem_find_attachments_list parts x h

theorem mem_find_attachments_list : ∀ (ps : List Payload) (x : Payload),
    x ∈ find_attachments_list ps →
    (truthyStr x.attachmentId && truthyStr x.filename) = true
  | p :: ps, x, hx => by
      unfold find_attachments_list at hx
      rcases List.mem_append.mp hx with h | h
      · exact mem_find_attachments p x h
      · exact mem_find_attachments_list ps x h

end

theorem filterMap_length_all_some {α β : Type} (f : α → Option β) :
    ∀ l : List α, (∀ x ∈ l, (f x).isSome) → (l.filterMap f).length = l.length := by
  intro l
  induction l with
  | nil => intro _; rfl
  | cons a l ih =>
    intro h
    rcases Option.isSome_iff_exists.mp (h a (.head _)) with ⟨b, hb⟩
    rw [List.filterMap_cons, hb]
    simp only [List.length_cons]
    rw [ih (fun x hx => h x (.tail _ hx))]

/-! ### Claim theorems -/

/-- C1: a request whose cost would push `_quota_used` past the daily limit is
rejected with `GmailQuotaExceededError` before `request_func` is invoked, and
the quota counter, the statistics and the reset time are all unchanged;
in particular, 999995 used of 1000000 plus a cost-10 download is rejected
with the counter still at 999995. -/
theorem C1_quota_rejection {R : Type} (requests_per_day quota_units now : Nat)
    (st : ClientState) (first : ActionResult R) (reauth_ok : Bool)
    (second : ActionResult R)
    (h : requests_per_day < st.quota_used + quota_units) :
    make_api_request_once requests_per_day quota_units now st first reauth_ok second =
      ⟨.error .quotaExceeded, st, 0, 0⟩ := by
  unfold make_api_request_once
  rw [if_pos h]

/-- Witness for C1 at the spec's scenario: state 999995/1000000 and a cost-10
call. -/
theorem C1_quota_rejection_witness :
    1000000 < 999995 + 10 ∧
    make_api_request_once (R := Unit) 1000000 10 0 ⟨999995, 86400, {}⟩ (.ok ()) true
        (.ok ()) = ⟨.error .quotaExceeded, ⟨999995, 86400, {}⟩, 0, 0⟩ :=
  ⟨by decide,
   C1_quota_rejection 1000000 10 0 ⟨999995, 86400, {}⟩ (.ok ()) true (.ok ()) (by decide)⟩

/-- C2 counterexample: a call arriving at `now = 200`, past the reset boundary
`resetAt = 100`, with 999995 of 1000000 units used and cost 10, is rejected
with `QuotaExceeded` against the stale counter and the state keeps the old
counter and reset time — whereas the spec's reset-first `reserve` would reset
and accept the call. -/
theorem C2_counterexample :
    (100 : Nat) ≤ 200 ∧
    (make_api_request_once (R := Unit) 1000000 10 200 ⟨999995, 100, {}⟩ (.ok ()) true
        (.ok ())).result = .error .quotaExceeded ∧
    (make_api_request_once (R := Unit) 1000000 10 200 ⟨999995, 100, {}⟩ (.ok ()) true
        (.ok ())).state = ⟨999995, 100, {}⟩ ∧
    reserve_spec 1000000 10 200 ⟨999995, 100, {}⟩ = .ok ⟨10, 86500, {}⟩ :=
  ⟨by decide, rfl, rfl, rfl⟩

/-- C2 amended: the daily reset is checked only after a successful request,
not before the budget test. The budget is always evaluated against the
not-yet-reset counter (so an over-budget call past the boundary is still
rejected, state unchanged); after a successful request at or past the
boundary the counter is zeroed and the reset time advanced to one day from
now, and otherwise the counter just grows by the consumed units. -/
theorem C2_reset_after_success {R : Type} (requests_per_day quota_units now : Nat)
    (st : ClientState) (resp : R) (reauth_ok : Bool) (second : ActionResult R) :
    (requests_per_day < st.quota_used + quota_units →
      make_api_request_once requests_per_day quota_units now st (.ok resp) reauth_ok
        second = ⟨.error .quotaExceeded, st, 0, 0⟩) ∧
    (st.quota_used + quota_units ≤ requests_per_day → st.quota_reset_time ≤ now →
      (make_api_request_once requests_per_day quota_units now st (.ok resp) reauth_ok
        second).state =
        { quota_used := 0
          quota_reset_time := now + seconds_per_day
          stats := { st.stats with
            requests_made := st.stats.requests_made + 1
            quota_units_used := st.stats.quota_units_used + quota_units } }) ∧
    (st.quota_used + quota_units ≤ requests_per_day → ¬ st.quota_reset_time ≤ now →
      (make_api_request_once requests_per_day quota_units now st (.ok resp) reauth_ok
        second).state =
        { st with
          quota_used := st.quota_used + quota_units
          stats := { st.stats with
            requests_made := st.stats.requests_made + 1
            quota_units_used := st.stats.quota_units_used + quota_units } }) := by
  refine ⟨fun h => ?_, fun hq hr => ?_, fun hq hr => ?_⟩
  · unfold make_api_request_once; rw [if_pos h]
  · unfold make_api_request_once
    rw [if_neg (Nat.not_lt.mpr hq)]
    dsimp only
    rw [if_pos hr]
  · unfold make_api_request_once
    rw [if_neg (Nat.not_lt.mpr hq)]
    dsimp only
    rw [if_neg hr]

/-- Witness for the amended C2: a successful in-budget call past the boundary
resets the counter to 0 and moves the reset time to one day after now. -/
theorem C2_reset_after_success_witness :
    (make_api_request_once (R := Unit) 1000000 10 200 ⟨999990, 100, {}⟩ (.ok ()) true
      (.ok ())).state =
      { quota_used := 0
        quota_reset_time := 200 + seconds_per_day
        stats := { requests_made := 1, quota_units_used := 10 } } :=
  (C2_reset_after_success 1000000 10 200 ⟨999990, 100, {}⟩ () true (.ok ())).2.1
    (by decide) (by decide)

/-- C3 counterexample: with `requests_per_minute = 30` the computed semaphore
limit is `30 / 60 = 0`, not at least 1, so the claimed
`max 1 (floor(requestsPerMinute / 60))` formula (which gives 1) does not
match the code. -/
theorem C3_counterexample :
    semaphore_limit 30 = 0 ∧ ¬ 1 ≤ semaphore_limit 30 ∧ max 1 (30 / 60) = 1 := by
  decide

/-- C3 amended: the concurrency limit is exactly `requests_per_minute / 60`
with no minimum-1 clamp: it is 0 for any configured rate below 60 and at
least 1 only from 60 upwards. -/
theorem C3_semaphore_no_minimum (requests_per_minute : Nat) :
    semaphore_limit requests_per_minute = requests_per_minute / 60 ∧
    (requests_per_minute < 60 → semaphore_limit requests_per_minute = 0) ∧
    (60 ≤ requests_per_minute → 1 ≤ semaphore_limit requests_per_minute) := by
  refine ⟨rfl, fun h => ?_, fun h => ?_⟩
  · exact Nat.div_eq_of_lt h
  · exact (Nat.one_le_div_iff (by norm_num)).mpr h

/-- Witness for the amended C3 at 30 and at the default 250. -/
theorem C3_semaphore_no_minimum_witness :
    semaphore_limit 30 = 0 ∧ 1 ≤ semaphore_limit 250 :=
  ⟨(C3_semaphore_no_minimum 30).2.1 (by decide),
   (C3_semaphore_no_minimum 250).2.2 (by decide)⟩

/-- C4 counterexample: an HTTP 500 failure is a `TransientError` under the
spec's classification and hence claimed retryable, but the gate wraps it into
the generic `GmailError`, which is not in the decorator's retried tuple, so
the backoff loop surfaces it after a single attempt. -/
theorem C4_counterexample :
    spec_classify 500 "backendError" none = .transientError ∧
    spec_retryable .transientError = true ∧
    (make_api_request_once (R := Unit) 1000000 1 0 ⟨0, 86400, {}⟩
        (.httpError 500 "backendError" none) true (.ok ())).result =
      .error .gmailError ∧
    retried_by_backoff .gmailError = false ∧
    (backoff_run (fun _ => (.error .gmailError : Except RaisedExc Unit))
        (fun _ => 0)).2 = 1 :=
  ⟨rfl, rfl, rfl, rfl, rfl⟩

/-- C4 amended: the retry loop makes at most 5 attempts; the only exceptions
in the retried tuple are `GmailRateLimitError` and raw `HttpError`, and a raw
`HttpError` never escapes the gate (non-429/403/401 HTTP errors surface as
the unretried generic `GmailError`); an unretried first error — in
particular `QuotaExceeded` — is surfaced immediately; the surfaced error is
always the last attempt's outcome, unchanged; and once the 300-second budget
is spent no further retry happens. -/
theorem C4_retry_policy :
    (∀ (R : Type) (o : Nat → Except RaisedExc R) (el : Nat → Nat),
        (backoff_run o el).2 ≤ backoff_max_tries) ∧
    (∀ e, retried_by_backoff e = true →
        (∃ ra, e = .rateLimit ra) ∨ ∃ s r a, e = .httpRaw s r a) ∧
    (∀ (R : Type) (requests_per_day quota_units now : Nat) (st : ClientState)
        (first : ActionResult R) (reauth_ok : Bool) (second : ActionResult R)
        (s : Nat) (r : String) (a : Option Nat),
        (make_api_request_once requests_per_day quota_units now st first reauth_ok
          second).result ≠ .error (.httpRaw s r a)) ∧
    (∀ (R : Type) (o : Nat → Except RaisedExc R) (el : Nat → Nat) (e : RaisedExc),
        o 0 = .error e → retried_by_backoff e = false →
        backoff_run o el = (.error e, 1)) ∧
    (∀ (R : Type) (o : Nat → Except RaisedExc R) (el : Nat → Nat),
        (backoff_run o el).1 = o ((backoff_run o el).2 - 1)) ∧
    (∀ (R : Type) (o : Nat → Except RaisedExc R) (el : Nat → Nat) (e : RaisedExc),
        o 0 = .error e → backoff_max_time ≤ el 0 →
        backoff_run o el = (.error e, 1)) := by
  refine ⟨?_, ?_, ?_, ?_, ?_, ?_⟩
  · intro R o el
    have := backoffGo_tries_le o el (backoff_max_tries - 1) 0
    unfold backoff_run
    unfold backoff_max_tries at *
    omega
  · intro e he
    cases e with
    | httpRaw s r a => exact Or.inr ⟨s, r, a, rfl⟩
    | rateLimit ra => exact Or.inl ⟨ra, rfl⟩
    | quotaExceeded => exact absurd he (by simp [retried_by_backoff])
    | authenticationError => exact absurd he (by simp [retried_by_backoff])
    | gmailError => exact absurd he (by simp [retried_by_backoff])
    | transportRaised => exact absurd he (by simp [retried_by_backoff])
  · intro R limit units now st first reauth_ok second s r a
    exact gate_no_raw_httpError limit units now st first reauth_ok second s r a
  · intro R o el e h hnr
    exact backoffGo_stop o el (backoff_max_tries - 1) 0 e h (Or.inl hnr)
  · intro R o el
    exact backoffGo_result_last o el (backoff_max_tries - 1) 0
  · intro R o el e h ht
    exact backoffGo_stop o el (backoff_max_tries - 1) 0 e h (Or.inr ht)

/-- Witness for the amended C4: the attempt bound at an always-rate-limited
stream, and the immediate surfacing of `QuotaExceeded`. -/
theorem C4_retry_policy_witness :
    (backoff_run (fun _ => (.error (.rateLimit 2) : Except RaisedExc Unit))
        (fun k => k)).2 ≤ backoff_max_tries ∧
    backoff_run (fun _ => (.error .quotaExceeded : Except RaisedExc Unit))
        (fun _ => 0) = (.error .quotaExceeded, 1) :=
  ⟨C4_retry_policy.1 Unit (fun _ => .error (.rateLimit 2)) (fun k => k),
   C4_retry_policy.2.2.2.1 Unit (fun _ => .error .quotaExceeded) (fun _ => 0)
     .quotaExceeded rfl rfl⟩

/-- C5 counterexample: a 429 failure surfaces as `RateLimited` with
`retry_after = 60` (the header-absent default), yet the full-jitter delay
before the first retry is `draw * 2^0 ≤ 1`; the legitimate draw `1/2` gives
a delay of `1/2 < 60`, so the server-provided `retryAfterSeconds` is not a
floor on the next delay. -/
theorem C5_counterexample :
    (make_api_request_once (R := Unit) 1000000 1 0 ⟨0, 86400, {}⟩
        (.httpError 429 "" none) true (.ok ())).result = .error (.rateLimit 60) ∧
    (0 : ℚ) ≤ 1 / 2 ∧ (1 / 2 : ℚ) ≤ 1 ∧
    full_jitter_delay 0 (1 / 2) < 60 := by
  refine ⟨rfl, by norm_num, by norm_num, ?_⟩
  norm_num [full_jitter_delay, backoff_expo_value]

/-- C5 amended: every full-jitter delay before retry attempt `k` is
non-negative and at most the expo value `2^k` (itself within the claimed
`base * 2^k` envelope); the stored `retry_after` plays no part in the delay. -/
theorem C5_delay_bounds (attempt : Nat) (draw : ℚ)
    (h0 : 0 ≤ draw) (h1 : draw ≤ 1) :
    0 ≤ full_jitter_delay attempt draw ∧
    full_jitter_delay attempt draw ≤ backoff_expo_value attempt ∧
    backoff_expo_value attempt ≤ 2 * 2 ^ attempt := by
  have hv : (0 : ℚ) ≤ backoff_expo_value attempt := by
    unfold backoff_expo_value; positivity
  refine ⟨mul_nonneg h0 hv, ?_, ?_⟩
  · calc full_jitter_delay attempt draw
        = draw * backoff_expo_value attempt := rfl
      _ ≤ 1 * backoff_expo_value attempt := mul_le_mul_of_nonneg_right h1 hv
      _ = backoff_expo_value attempt := one_mul _
  · unfold backoff_expo_value
    nlinarith [pow_pos (show (0:ℚ) < 2 by norm_num) attempt]

/-- Witness for the amended C5 at attempt 3 with draw 1/2. -/
theorem C5_delay_bounds_witness :
    0 ≤ full_jitter_delay 3 (1 / 2) ∧
    full_jitter_delay 3 (1 / 2) ≤ backoff_expo_value 3 ∧
    backoff_expo_value 3 ≤ 2 * 2 ^ 3 :=
  C5_delay_bounds 3 (1 / 2) (by norm_num) (by norm_num)

/-- C6: on a 401 failure (with a reason that is not a rate-limit reason, which
would take the 429 branch first), the gate performs exactly one
re-authentication attempt within the same call; when re-authentication
succeeds the action is re-issued exactly once, returning its response on
success; any failure of the re-issued action — in particular a second 401 —
or of the re-authentication itself surfaces as `GmailAuthenticationError`,
which is not in the decorator's retried tuple, so the surrounding backoff
loop stops after this single attempt (the inline retry is not counted
against its budget). -/
theorem C6_one_shot_reauth {R : Type} (requests_per_day quota_units now : Nat)
    (st : ClientState) (reason : String) (ra : Option Nat) (reauth_ok : Bool)
    (second : ActionResult R)
    (hq : st.quota_used + quota_units ≤ requests_per_day)
    (hreason : isRateLimitReason reason = false) :
    (make_api_request_once requests_per_day quota_units now st
        (.httpError 401 reason ra) reauth_ok second).reauthAttempts = 1 ∧
    (make_api_request_once requests_per_day quota_units now st
        (.httpError 401 reason ra) reauth_ok second).actionCalls =
      (if reauth_ok then 2 else 1) ∧
    (∀ resp : R, second = .ok resp → reauth_ok = true →
      (make_api_request_once requests_per_day quota_units now st
        (.httpError 401 reason ra) reauth_ok second).result = .ok resp) ∧
    ((∀ resp : R, second ≠ .ok resp) → reauth_ok = true →
      (make_api_request_once requests_per_day quota_units now st
        (.httpError 401 reason ra) reauth_ok second).result =
        .error .authenticationError) ∧
    (reauth_ok = false →
      (make_api_request_once requests_per_day quota_units now st
        (.httpError 401 reason ra) reauth_ok second).result =
        .error .authenticationError) ∧
    retried_by_backoff .authenticationError = false ∧
    (∀ (o : Nat → Except RaisedExc R) (el : Nat → Nat),
      o 0 = .error .authenticationError →
      backoff_run o el = (.error .authenticationError, 1)) := by
  have hgate : make_api_request_once requests_per_day quota_units now st
      (.httpError 401 reason ra) reauth_ok second =
      (if reauth_ok then
        match second with
        | .ok resp => ⟨.ok resp, st, 2, 1⟩
        | _ => ⟨.error .authenticationError, st, 2, 1⟩
      else ⟨.error .authenticationError, st, 1, 1⟩) := by
    unfold make_api_request_once
    rw [if_neg (Nat.not_lt.mpr hq)]
    dsimp only
    rw [if_neg (by simp [hreason]), if_neg (by simp), if_pos rfl]
  refine ⟨?_, ?_, ?_, ?_, ?_, rfl, ?_⟩
  · rw [hgate]; cases reauth_ok <;> rcases second with v | ⟨s, r, a⟩ | _ <;> rfl
  · rw [hgate]; cases reauth_ok <;> rcases second with v | ⟨s, r, a⟩ | _ <;> rfl
  · intro resp hsec hok; subst hsec; rw [hgate, if_pos hok]
  · intro hsec hok
    rw [hgate, if_pos hok]
    rcases second with v | ⟨s, r, a⟩ | _
    · exact absurd rfl (hsec v)
    · rfl
    · rfl
  · intro hok; rw [hgate, if_neg (by simp [hok])]
  · intro o el h
    exact backoffGo_stop o el (backoff_max_tries - 1) 0 _ h (Or.inl rfl)

/-- Witness for C6: a 401 followed by a second 401 after successful re-auth
yields one re-authentication and a fatal `GmailAuthenticationError`. -/
theorem C6_one_shot_reauth_witness :
    (make_api_request_once (R := Unit) 100 1 0 ⟨0, 86400, {}⟩
        (.httpError 401 "" none) true (.httpError 401 "" none)).reauthAttempts = 1 ∧
    (make_api_request_once (R := Unit) 100 1 0 ⟨0, 86400, {}⟩
        (.httpError 401 "" none) true (.httpError 401 "" none)).result =
      .error .authenticationError :=
  ⟨(C6_one_shot_reauth 100 1 0 ⟨0, 86400, {}⟩ "" none true (.httpError 401 "" none)
      (by decide) (by decide)).1,
   (C6_one_shot_reauth 100 1 0 ⟨0, 86400, {}⟩ "" none true (.httpError 401 "" none)
      (by decide) (by decide)).2.2.2.1 (fun resp h => ActionResult.noConfusion h) rfl⟩

/-- C7: within one watch session no message id is ever emitted twice (the
whole emitted sequence is duplicate-free), the seen-baseline only grows at
each cycle, each cycle's emissions come in ascending lexicographic order,
and the spec scenario — baseline m1,m2, poll returning m1,m2,m3,m5,m4 —
emits exactly m3,m4,m5 in that order. -/
theorem C7_watch_emissions :
    (∀ (seen : List String) (polls : List (Except String (List String))),
        (watchLoop seen polls).Nodup) ∧
    (∀ (seen current : List String), seen ⊆ (pollCycle seen current).1) ∧
    (∀ (seen current : List String),
        ((pollCycle seen current).2).Sorted (· ≤ ·)) ∧
    watch_for_new_messages (.ok ["m1", "m2"])
        [.ok ["m1", "m2", "m3", "m5", "m4"]] = ["m3", "m4", "m5"] :=
  ⟨watchLoop_nodup, pollCycle_seen_subset, pollCycle_emit_sorted, rfl⟩

/-- C8: the query builder is a pure function (equal inputs give equal
output), the built query is exactly the space-join of the §4.4 clause lists
in their fixed order, and the spec scenario with two senders and
`has_attachment` yields exactly the expected string. -/
theorem C8_query_builder :
    (∀ (pd : String → Option PyDate) (senders : List String)
        (ad bd : Option String) (ha : Bool) (subj excl exts : List String),
        build_search_query pd senders ad bd ha subj excl exts =
          build_search_query pd senders ad bd ha subj excl exts) ∧
    (∀ (pd : String → Option PyDate) (senders : List String)
        (ad bd : Option String) (ha : Bool) (subj excl exts : List String),
        build_search_query pd senders ad bd ha subj excl exts =
          String.intercalate " "
            (spec_query_clauses pd senders ad bd ha subj excl exts)) ∧
    build_search_query (fun _ => none) ["a@x.com", "b@x.com"] none none true [] [] [] =
      "(from:a@x.com OR from:b@x.com) has:attachment" := by
  refine ⟨fun _ _ _ _ _ _ _ _ => rfl, ?_, rfl⟩
  intro pd senders ad bd ha subj excl exts
  unfold build_search_query spec_query_clauses spec_senders_clause spec_date_clause
    spec_attachment_clause spec_extensions_clause spec_subject_clauses
    spec_exclude_clauses
  simp only [List.append_assoc, List.nil_append]

/-- C9: for every payload tree, `get_message_attachments` returns exactly one
entry per part carrying both a truthy body-level attachment id and a truthy
filename (at any depth), and the message fields computed by
`get_message_details` satisfy `attachment_count = N` and
`has_attachments ↔ N > 0` for that same count. -/
theorem C9_attachment_count (message_id : String) (payload : Payload) :
    (get_message_attachments message_id payload).length = spec_count_parts payload ∧
    message_attachment_count payload = spec_count_parts payload ∧
    (message_has_attachments payload = true ↔ 0 < spec_count_parts payload) := by
  have hlen := find_attachments_length_eq payload
  have hmain : (get_message_attachments message_id payload).length =
      (find_attachments payload).length := by
    unfold get_message_attachments
    apply filterMap_length_all_some
    intro x hx
    have h := mem_find_attachments payload x hx
    rw [Bool.and_eq_true] at h
    rcases haid : x.attachmentId with _ | aid
    · rw [haid] at h
      exact absurd h.1 (by simp [truthyStr])
    · rw [haid] at h
      have hne : ¬ aid = "" := by
        intro hc
        rw [hc] at h
        exact absurd h.1 (by simp [truthyStr])
      dsimp only
      rw [if_neg hne]
      rfl
  refine ⟨hmain.trans hlen, hlen, ?_⟩
  unfold message_has_attachments
  rw [hlen]
  exact decide_eq_true_iff

/-- C10: when the baseline search raises, the watcher ends immediately — the
emitted sequence is empty and no exception reaches the caller (the model's
return type carries no error); with a successful baseline the poll loop does
run and can emit. -/
theorem C10_baseline_failure :
    (∀ (e : String) (polls : List (Except String (List String))),
        watch_for_new_messages (.error e) polls = []) ∧
    watch_for_new_messages (.ok []) [.ok ["m1"]] = ["m1"] :=
  ⟨fun _ _ => rfl, rfl⟩

end GmailDownloader
